import Mathlib

/-
Verification of the Online-Retail-SQL analysis scripts.

The repository consists of two Python files: load_data.py, which ingests the
"Online Retail" CSV into an SQLite table named online_retail (normalizing the
InvoiceDate column with parse_invoice_date), and run_analysis.py, which runs a
battery of SQL reports over that table and exports each non-empty result as a
CSV file.

This file gives a shallow embedding: the table is a list of rows, each SQL
report of run_analysis.py is a Lean function over that list, and SQLite
semantics (NULL handling, LIKE, COUNT(DISTINCT ...), SUM, AVG, division
returning NULL on a zero divisor, ROUND to two decimals, strftime and
julianday on the stored date texts) are modelled explicitly.  Monetary values
are rationals.
-/

attribute [local semireducible] Rat.add Rat.mul Rat.inv Rat.sub Rat.ofScientific

/-- Calendar timestamp carried by a canonical `YYYY-MM-DD HH:MM:SS` text, as
produced by parse_invoice_date in load_data.py (lines 23-38). -/
structure Timestamp where
  year : Nat
  month : Nat
  day : Nat
  hour : Nat
  minute : Nat
  second : Nat
deriving DecidableEq

/-- Value stored in the InvoiceDate column.  load_data.py stores NULL for
missing/blank input, the canonical `YYYY-MM-DD HH:MM:SS` rendering when one of
its three strptime formats matches, and otherwise the raw input text
unchanged.  For a raw text, the component `p` records how SQLite's own
datetime parser reads that text when the analysis queries apply strftime or
julianday to it: `none` when SQLite cannot interpret the text as a datetime
(the usual case for the fallback texts), `some t` when it happens to be in a
format SQLite accepts.  SQLite's full textual datetime grammar is abstracted
by this component rather than reimplemented. -/
inductive DateVal where
  | null
  | iso (t : Timestamp)
  | raw (s : String) (p : Option Timestamp)
deriving DecidableEq

/-- One row of the online_retail table (schema loaded by load_data.py):
InvoiceNo, StockCode, Description, Quantity, InvoiceDate, UnitPrice,
CustomerID, Country.  Every column is nullable in SQLite. -/
structure Row where
  invoiceNo : Option String
  stockCode : Option String
  description : Option String
  quantity : Option Int
  invoiceDate : DateVal
  unitPrice : Option ℚ
  customerId : Option Nat
  country : Option String
deriving DecidableEq

/-- SQLite `LIKE 'C%'` on a non-NULL text: LIKE is ASCII case-insensitive, so
it matches exactly the texts whose first character is `C` or `c`. -/
def startsWithC (s : String) : Bool :=
  match s.data with
  | [] => false
  | c :: _ => c = 'C' || c = 'c'

/-- Predicate `InvoiceNo LIKE 'C%'` as a row filter: NULL yields NULL in SQL,
which excludes the row, hence `false` here. -/
def likeC (o : Option String) : Bool :=
  match o with
  | some s => startsWithC s
  | none => false

/-- Predicate `InvoiceNo NOT LIKE 'C%'` as a row filter: NULL again excludes
the row (NOT NULL is NULL in SQL three-valued logic). -/
def notLikeC (o : Option String) : Bool :=
  match o with
  | some s => !startsWithC s
  | none => false

/-- Predicate `Quantity > 0`: NULL excludes the row. -/
def qtyPos (r : Row) : Bool :=
  match r.quantity with
  | some q => decide (0 < q)
  | none => false

/-- `COUNT(DISTINCT e)` over the per-row values of an expression `e`:
NULL values are ignored and the remaining values are counted without
duplicates. -/
def distinctCount {α : Type} [DecidableEq α] (l : List (Option α)) : Nat :=
  (l.filterMap id).dedup.length

/-- `CASE WHEN b THEN v END` (no ELSE): NULL unless the condition holds. -/
def caseVal {α : Type} (b : Bool) (v : Option α) : Option α :=
  if b then v else none

/-- SQL division: NULL when either operand is NULL, and NULL (not an error,
not a NaN) when the divisor is zero — SQLite returns NULL for division by
zero, which is also exactly what the `x / NULLIF(d, 0)` idiom used by
run_analysis.py produces. -/
def sqlDiv (x y : Option ℚ) : Option ℚ :=
  match x, y with
  | some a, some b => if b = 0 then none else some (a / b)
  | _, _ => none

/-- SQLite `ROUND(q, 2)`: rounding half away from zero to two decimals. -/
def round2 (q : ℚ) : ℚ :=
  if 0 ≤ q then (⌊q * 100 + 1 / 2⌋ : ℚ) / 100
  else -((⌊-(q * 100) + 1 / 2⌋ : ℚ) / 100)

/-- `ROUND(e, 2)` lifted to a nullable operand. -/
def round2Opt (q : Option ℚ) : Option ℚ :=
  q.map round2

/-- Per-row value of `CASE WHEN Quantity > 0 THEN Quantity * UnitPrice ELSE 0
END` (on the views used below, UnitPrice is never NULL). -/
def salesVal (r : Row) : ℚ :=
  if qtyPos r then (r.quantity.getD 0 : ℚ) * r.unitPrice.getD 0 else 0

/-- `SUM(CASE WHEN Quantity > 0 THEN Quantity * UnitPrice ELSE 0 END)` over a
view: SQL SUM is NULL on an empty group and otherwise adds the (never NULL,
thanks to the ELSE 0 arm) per-row values. -/
def sumSales (l : List Row) : Option ℚ :=
  match l with
  | [] => none
  | _ => some ((l.map salesVal).sum)

/-- `AVG` over a list of non-NULL values: NULL on an empty group. -/
def sqlAvg (l : List ℚ) : Option ℚ :=
  match l with
  | [] => none
  | _ => some (l.sum / l.length)

/-- `NULLIF(n, 0)` applied to a non-negative count, as used in the
`x / NULLIF(COUNT(...), 0)` idiom. -/
def nullifZero (n : Nat) : Option ℚ :=
  if n = 0 then none else some n

/-- Result row of query 1.3 of run_analysis.py (lines 87-101): distinct
counts of invoices (total, non-cancelled, cancelled), customers, products and
countries over the whole table. -/
structure DistinctCounts where
  total_invoices : Nat
  valid_invoices : Nat
  cancelled_invoices : Nat
  total_customers : Nat
  total_products : Nat
  total_countries : Nat
deriving DecidableEq

/-- Query 1.3 of run_analysis.py (lines 87-101). -/
def distinct_counts (db : List Row) : DistinctCounts :=
  { total_invoices := distinctCount (db.map (·.invoiceNo))
    valid_invoices :=
      distinctCount (db.map fun r => caseVal (notLikeC r.invoiceNo) r.invoiceNo)
    cancelled_invoices :=
      distinctCount (db.map fun r => caseVal (likeC r.invoiceNo) r.invoiceNo)
    total_customers := distinctCount (db.map (·.customerId))
    total_products := distinctCount (db.map (·.stockCode))
    total_countries := distinctCount (db.map (·.country)) }

/-- Result row of query 2.2 of run_analysis.py (lines 127-139): cancellation
analysis over the whole table.  The rate has no NULLIF guard in the source;
SQLite division by zero nevertheless yields NULL, which `sqlDiv` models. -/
structure CancellationAnalysis where
  cancelled_invoices : Nat
  total_invoices : Nat
  cancellation_rate_pct : Option ℚ
deriving DecidableEq

/-- Query 2.2 of run_analysis.py (lines 127-139). -/
def cancellation_analysis (db : List Row) : CancellationAnalysis :=
  let c := distinctCount (db.map fun r => caseVal (likeC r.invoiceNo) r.invoiceNo)
  let t := distinctCount (db.map (·.invoiceNo))
  { cancelled_invoices := c
    total_invoices := t
    cancellation_rate_pct := round2Opt (sqlDiv (some (100 * c)) (some t)) }

/-- A result table as handed to save_to_csv: a list of result rows (cells
rendered as text). -/
abbrev Table := List (List String)

/-- save_to_csv of run_analysis.py (lines 33-38): writes the file only when
the query produced a DataFrame (`df is not None`) that is non-empty; the file
system is modelled as the list of file names written so far. -/
def save_to_csv (df : Option Table) (filename : String) (files : List String) :
    List String :=
  match df with
  | some t => if t.isEmpty then files else files ++ [filename]
  | none => files

lemma distinctCount_eq_card {α : Type} [DecidableEq α] (l : List (Option α)) :
    distinctCount l = (l.filterMap id).toFinset.card :=
  (List.card_toFinset _).symm

lemma caseVal_eq_some {α : Type} {b : Bool} {v : Option α} {s : α} :
    caseVal b v = some s ↔ b = true ∧ v = some s := by
  cases b <;> simp [caseVal]

/-- The set of invoice numbers selected by the CASE filter of query 1.3. -/
lemma filterMap_caseVal_toFinset (db : List Row) (p : String → Bool) :
    ((db.map fun r =>
        caseVal ((r.invoiceNo.map p).getD false) r.invoiceNo).filterMap id).toFinset
      = ((db.map (·.invoiceNo)).filterMap id).toFinset.filter (fun s => p s) := by
  ext s
  simp only [List.mem_toFinset, Finset.mem_filter, List.mem_filterMap,
    List.mem_map, id_eq]
  constructor
  · rintro ⟨o, ⟨r, hr, rfl⟩, ho⟩
    rcases caseVal_eq_some.mp ho with ⟨hb, hv⟩
    rw [hv] at hb
    exact ⟨⟨r.invoiceNo, ⟨r, hr, rfl⟩, hv⟩, by simp at hb; exact hb⟩
  · rintro ⟨⟨o, ⟨r, hr, rfl⟩, ho⟩, hp⟩
    refine ⟨caseVal ((r.invoiceNo.map p).getD false) r.invoiceNo, ⟨r, hr, rfl⟩, ?_⟩
    rw [caseVal_eq_some]
    rw [ho]
    simpa using hp

/-- C7: for every dataset, the distinct-count report of query 1.3 satisfies
valid_invoices + cancelled_invoices = total_invoices — the `LIKE 'C%'`
cancellation-prefix convention partitions the set of distinct (non-NULL)
invoice identifiers exactly into the valid and the cancelled class. -/
theorem C7_invoice_partition (db : List Row) :
    (distinct_counts db).valid_invoices + (distinct_counts db).cancelled_invoices
      = (distinct_counts db).total_invoices := by
  have hval : (fun r : Row => caseVal (notLikeC r.invoiceNo) r.invoiceNo)
      = fun r : Row =>
        caseVal ((r.invoiceNo.map fun s => !startsWithC s).getD false) r.invoiceNo := by
    funext r
    cases h : r.invoiceNo <;> simp [notLikeC, h]
  have hcan : (fun r : Row => caseVal (likeC r.invoiceNo) r.invoiceNo)
      = fun r : Row =>
        caseVal ((r.invoiceNo.map fun s => startsWithC s).getD false) r.invoiceNo := by
    funext r
    cases h : r.invoiceNo <;> simp [likeC, h]
  simp only [distinct_counts, distinctCount_eq_card, hval, hcan,
    filterMap_caseVal_toFinset]
  have hsplit := Finset.filter_card_add_filter_neg_card_eq_card
    (s := ((db.map (·.invoiceNo)).filterMap id).toFinset)
    (p := fun s => startsWithC s = true)
  have hnot : (((db.map (·.invoiceNo)).filterMap id).toFinset.filter
        (fun s => (!startsWithC s) = true))
      = (((db.map (·.invoiceNo)).filterMap id).toFinset.filter
        (fun s => ¬ (startsWithC s = true))) := by
    apply Finset.filter_congr
    intro s _
    simp
  rw [hnot, Nat.add_comm]
  simpa using hsplit

/-- C9: the export sink writes a file exactly when the result table exists
and has at least one row; an absent (`None`) or empty table leaves the file
system unchanged — a no-op, never an error, never an empty artifact. -/
theorem C9_export_skips_empty (df : Option Table) (filename : String)
    (files : List String) :
    (save_to_csv df filename files = files ++ [filename]
        ↔ ∃ t, df = some t ∧ t ≠ []) ∧
    (save_to_csv df filename files = files ↔ df = none ∨ df = some []) := by
  rcases df with _ | t
  · constructor
    · simp [save_to_csv]
    · simp [save_to_csv]
  · rcases t with _ | ⟨row, rest⟩
    · constructor
      · simp [save_to_csv]
      · simp [save_to_csv]
    · have hne : files ++ [filename] ≠ files := by
        intro h
        have := congrArg List.length h
        simp at this
      constructor
      · simp [save_to_csv]
      · constructor
        · intro h
          rw [save_to_csv] at h
          simp only [List.isEmpty, if_false] at h
          exact absurd h hne
        · intro h
          rcases h with h | h <;> simp at h

/-- CASE expression assigning the customer segment in query 5.1 of
run_analysis.py (lines 383-392), evaluated top to bottom, first match wins,
with the ELSE arm as the default. -/
def customer_segment_51 (r f m : Nat) : String :=
  if 4 ≤ r ∧ 4 ≤ f ∧ 4 ≤ m then "Champions"
  else if 3 ≤ r ∧ 4 ≤ f ∧ 3 ≤ m then "Loyal Customers"
  else if 4 ≤ r ∧ f ≤ 2 then "Potential Loyalists"
  else if 3 ≤ r ∧ f ≤ 2 ∧ 3 ≤ m then "At Risk"
  else if r ≤ 2 ∧ 3 ≤ f then "Cannot Lose Them"
  else if r ≤ 2 ∧ f ≤ 2 ∧ 3 ≤ m then "Hibernating"
  else if r ≤ 2 then "Lost"
  else "Need Attention"

/-- Modelled from the spec, section 4.2: the eight segment rules as an
explicit ordered decision list (rules 1-7 with their guards; rule 8 is the
default).  The guard argument is the score triple (r, f, m). -/
def segment_rules : List ((Nat × Nat × Nat → Bool) × String) :=
  [ (fun s => decide (4 ≤ s.1 ∧ 4 ≤ s.2.1 ∧ 4 ≤ s.2.2), "Champions")
  , (fun s => decide (3 ≤ s.1 ∧ 4 ≤ s.2.1 ∧ 3 ≤ s.2.2), "Loyal Customers")
  , (fun s => decide (4 ≤ s.1 ∧ s.2.1 ≤ 2), "Potential Loyalists")
  , (fun s => decide (3 ≤ s.1 ∧ s.2.1 ≤ 2 ∧ 3 ≤ s.2.2), "At Risk")
  , (fun s => decide (s.1 ≤ 2 ∧ 3 ≤ s.2.1), "Cannot Lose Them")
  , (fun s => decide (s.1 ≤ 2 ∧ s.2.1 ≤ 2 ∧ 3 ≤ s.2.2), "Hibernating")
  , (fun s => decide (s.1 ≤ 2), "Lost") ]

/-- Modelled from the spec, section 4.2: first-match-wins evaluation of the
ordered rule list, with "Need Attention" when no rule matches. -/
def segment_label_spec (r f m : Nat) : String :=
  ((segment_rules.find? fun rule => rule.1 (r, f, m)).map Prod.snd).getD
    "Need Attention"

/-- C2: on every score triple in the range 1..5 the CASE expression of query
5.1 agrees with the ordered eight-rule decision list of the spec evaluated
first-match-wins, and in particular (5,5,5) is labelled Champions while
(1,1,1) is labelled Lost (rule 7), not Need Attention. -/
theorem C2_segment_decision_list :
    (∀ r ∈ Finset.Icc 1 5, ∀ f ∈ Finset.Icc 1 5, ∀ m ∈ Finset.Icc 1 5,
        customer_segment_51 r f m = segment_label_spec r f m) ∧
    customer_segment_51 5 5 5 = "Champions" ∧
    customer_segment_51 1 1 1 = "Lost" ∧
    customer_segment_51 1 1 1 ≠ "Need Attention" := by
  refine ⟨by decide, by decide, by decide, by decide⟩

/-- Witness for C2 at the concrete triple (3, 1, 4). -/
theorem C2_witness :
    customer_segment_51 3 1 4 = segment_label_spec 3 1 4 :=
  C2_segment_decision_list.1 3 (by decide) 1 (by decide) 4 (by decide)

/-- C6: the division operator used by every ratio or percentage computation
of run_analysis.py (both the explicit `x / NULLIF(d, 0)` idiom, e.g. lines
173-174 and 535-537, and SQLite's bare division as in the cancellation rate)
yields NULL on a zero or NULL denominator — never an error, never a NaN — and
yields 0 whenever the numerator is 0 and the denominator is not zero.  The
last conjunct evaluates an actual report: on the empty dataset the
cancellation rate divides by a zero invoice count and the output is NULL. -/
theorem C6_safe_division :
    (∀ x : Option ℚ, sqlDiv x (some 0) = none) ∧
    (∀ x : Option ℚ, sqlDiv x none = none) ∧
    (∀ y : ℚ, y ≠ 0 → sqlDiv (some 0) (some y) = some 0) ∧
    (cancellation_analysis []).cancellation_rate_pct = none := by
  refine ⟨?_, ?_, ?_, by decide⟩
  · intro x
    cases x <;> simp [sqlDiv]
  · intro x
    cases x <;> simp [sqlDiv]
  · intro y hy
    simp [sqlDiv, hy]

/-- Witness for C6 at the concrete denominator 2. -/
theorem C6_witness : sqlDiv (some 0) (some 2) = some 0 :=
  C6_safe_division.2.2.1 2 (by norm_num)

/-- Result row of query 11.1 of run_analysis.py (lines 753-773): overall
business KPIs over the view of rows with a non-NULL UnitPrice belonging to a
non-cancelled invoice. -/
structure BusinessKpis where
  total_invoices : Nat
  total_customers : Nat
  total_products : Nat
  total_countries : Nat
  total_sales_revenue : Option ℚ
  avg_order_value : Option ℚ
  avg_customer_value : Option ℚ
  avg_items_per_transaction : Option ℚ
deriving DecidableEq

/-- Query 11.1 of run_analysis.py (lines 753-773). -/
def business_kpis (db : List Row) : BusinessKpis :=
  let v := db.filter fun r => r.unitPrice.isSome && notLikeC r.invoiceNo
  { total_invoices := distinctCount (v.map (·.invoiceNo))
    total_customers := distinctCount (v.map (·.customerId))
    total_products := distinctCount (v.map (·.stockCode))
    total_countries := distinctCount (v.map (·.country))
    total_sales_revenue := round2Opt (sumSales v)
    avg_order_value :=
      round2Opt (sqlDiv (sumSales v) (nullifZero (distinctCount (v.map (·.invoiceNo)))))
    avg_customer_value :=
      round2Opt (sqlDiv (sumSales v) (nullifZero (distinctCount (v.map (·.customerId)))))
    avg_items_per_transaction :=
      round2Opt (sqlAvg (v.map fun r => if qtyPos r then (r.quantity.getD 0 : ℚ) else 0)) }

/-- The three line items of the spec's end-to-end scenario (section 8):
two rows of invoice 536365 and one row of the cancelled invoice C536379. -/
def c1Rows : List Row :=
  [ { invoiceNo := some "536365", stockCode := some "85123A",
      description := some "WHITE HANGING HEART T-LIGHT HOLDER",
      quantity := some 6, invoiceDate := .iso ⟨2010, 12, 1, 8, 26, 0⟩,
      unitPrice := some 2.55, customerId := some 17850,
      country := some "United Kingdom" }
  , { invoiceNo := some "536365", stockCode := some "71053",
      description := some "WHITE METAL LANTERN",
      quantity := some 6, invoiceDate := .iso ⟨2010, 12, 1, 8, 26, 0⟩,
      unitPrice := some 3.39, customerId := some 17850,
      country := some "United Kingdom" }
  , { invoiceNo := some "C536379", stockCode := some "D",
      description := some "Discount",
      quantity := some (-1), invoiceDate := .iso ⟨2010, 12, 1, 9, 41, 0⟩,
      unitPrice := some 27.5, customerId := some 14527,
      country := some "United Kingdom" } ]

/-- C1 counterexample: on the spec's three-row scenario the KPI report of
query 11.1 reports total_customers = 1, not 2 — its WHERE clause discards the
cancelled invoice C536379, and with it customer 14527, before counting
distinct customers. -/
theorem C1_counterexample :
    ¬ ((business_kpis c1Rows).total_customers = 2) := by decide

/-- C1 amended: on the scenario dataset the KPI report yields
total_sales_revenue = 35.64, distinct non-cancelled total_invoices = 1 and
total_customers = 1 (only the customer of the non-cancelled invoice); the
figure 2 is produced by the unfiltered distinct-counts report of query 1.3;
and the cancellation-rate report yields 50.0. -/
theorem C1_scenario_kpis :
    (business_kpis c1Rows).total_sales_revenue = some 35.64 ∧
    (business_kpis c1Rows).total_invoices = 1 ∧
    (business_kpis c1Rows).total_customers = 1 ∧
    (distinct_counts c1Rows).total_customers = 2 ∧
    (cancellation_analysis c1Rows).cancelled_invoices = 1 ∧
    (cancellation_analysis c1Rows).total_invoices = 2 ∧
    (cancellation_analysis c1Rows).cancellation_rate_pct = some 50 := by
  refine ⟨by decide, by decide, by decide, by decide, by decide, by decide, by decide⟩

/-- One report step of the main() batch of run_analysis.py: the CSV filename
passed to save_to_csv when main saves this report, and whether main calls
.head(...) on the query result before printing it.  run_query (lines 18-30)
catches any exception inside a single query and returns None after printing
the report's description with the error; printing a None result directly is
harmless, but calling .head on a None result raises an uncaught
AttributeError that aborts the whole batch. -/
structure Report where
  save : Option String
  printsHead : Bool
deriving DecidableEq

/-- The 24 run_query calls of main() in source order (run_analysis.py lines
64-773), with their save_to_csv filenames and whether the result is printed
through .head(...) — those are the calls at lines 318, 398, 501, 523, 547,
630 and 742. -/
def mainReports : List Report :=
  [ { save := none, printsHead := false }                                    -- 1.1 total_rows
  , { save := none, printsHead := false }                                    -- 1.2 revenue_breakdown
  , { save := none, printsHead := false }                                    -- 1.3 distinct_counts
  , { save := some "data_quality_report.csv", printsHead := false }          -- 2.1 missing_values
  , { save := none, printsHead := false }                                    -- 2.2 cancellation_analysis
  , { save := none, printsHead := false }                                    -- 2.3 returns_analysis
  , { save := some "top_countries.csv", printsHead := false }                -- 3.1 top_countries
  , { save := some "monthly_revenue_trend.csv", printsHead := false }        -- 3.2 monthly_trend
  , { save := some "revenue_growth_rate.csv", printsHead := false }          -- 3.3 revenue_growth
  , { save := some "top_customers.csv", printsHead := false }                -- 4.1 top_customers
  , { save := some "customer_frequency_distribution.csv", printsHead := false } -- 4.2 customer_frequency
  , { save := some "customer_lifetime_value.csv", printsHead := true }       -- 4.3 customer_clv (line 318)
  , { save := some "rfm_segments.csv", printsHead := true }                  -- 5.1 rfm_segments (line 398)
  , { save := some "rfm_segment_summary.csv", printsHead := false }          -- 5.2 rfm_summary
  , { save := some "top_products_by_revenue.csv", printsHead := true }       -- 6.1 (line 501)
  , { save := some "top_products_by_quantity.csv", printsHead := true }      -- 6.2 (line 523)
  , { save := some "product_return_rates.csv", printsHead := true }          -- 6.3 (line 547)
  , { save := some "hourly_sales_pattern.csv", printsHead := false }         -- 7.1 hourly_pattern
  , { save := some "day_of_week_analysis.csv", printsHead := false }         -- 7.2 day_of_week
  , { save := some "country_analysis.csv", printsHead := true }              -- 8.1 (line 630)
  , { save := some "invoice_averages.csv", printsHead := false }             -- 9.1 invoice_stats
  , { save := some "basket_size_distribution.csv", printsHead := false }     -- 9.2 basket_distribution
  , { save := some "customer_cohorts.csv", printsHead := true }              -- 10.1 (line 742)
  , { save := some "business_kpis.csv", printsHead := false } ]              -- 11.1 business_kpis

/-- Sequential execution of the report steps of main().  The oracle `exec`
gives the result of the i-th run_query call: None models a query whose
computation failed (run_query caught the exception and returned None).  For a
step that prints through .head, a None result raises an uncaught
AttributeError: execution stops and the returned flag is false; otherwise the
step prints, optionally saves via save_to_csv, and execution continues. -/
def runReports : List Report → (Nat → Option Table) → Nat → List String →
    List String × Bool
  | [], _, _, files => (files, true)
  | r :: rest, exec, i, files =>
    let res := exec i
    if r.printsHead ∧ res = none then (files, false)
    else
      let files' :=
        match r.save with
        | some f => save_to_csv res f files
        | none => files
      runReports rest exec (i + 1) files'

/-- main() of run_analysis.py as a function of the per-query outcomes. -/
def run_main (exec : Nat → Option Table) : List String × Bool :=
  runReports mainReports exec 0 []

/-- Oracle for the failing input: the customer-lifetime-value query (index
11, section 4.3) fails and run_query returns None, while every other query
returns a one-row table. -/
def execClvFails : Nat → Option Table :=
  fun i => if i = 11 then none else some [["x"]]

/-- C8 (code bug): when the single report 4.3 fails, main() does not continue
with the remaining reports — print(customer_clv.head(10)) at line 318 raises
on the None result and aborts the batch, so none of the later sibling
reports (e.g. business_kpis, whose query here succeeds) is computed or
exported, contradicting the partial-failure isolation that run_query's
per-query exception handling is there to provide. -/
theorem C8_batch_not_isolated :
    (run_main execClvFails).2 = false ∧
    "business_kpis.csv" ∉ (run_main execClvFails).1 ∧
    execClvFails 23 = some [["x"]] ∧
    (run_main (fun _ => some [["x"]])).1.length = 19 := by
  refine ⟨by decide, by decide, by decide, by decide⟩

/-- Two-digit zero-padded rendering used by the canonical date format. -/
def pad2 (n : Nat) : String :=
  if n < 10 then "0" ++ toString n else toString n

/-- Four-digit zero-padded rendering of the year. -/
def pad4 (n : Nat) : String :=
  if n < 10 then "000" ++ toString n
  else if n < 100 then "00" ++ toString n
  else if n < 1000 then "0" ++ toString n
  else toString n

/-- The canonical text `YYYY-MM-DD HH:MM:SS` that parse_invoice_date stores
(load_data.py line 34: dt.strftime of that format). -/
def Timestamp.text (t : Timestamp) : String :=
  pad4 t.year ++ "-" ++ pad2 t.month ++ "-" ++ pad2 t.day ++ " " ++
    pad2 t.hour ++ ":" ++ pad2 t.minute ++ ":" ++ pad2 t.second

/-- The text stored in the InvoiceDate column, NULL for a NULL value. -/
def DateVal.text : DateVal → Option String
  | .null => none
  | .iso t => some t.text
  | .raw s _ => some s

/-- How SQLite's datetime functions read the stored value: the canonical
texts parse back to their timestamp; for raw texts the abstracted SQLite
parse result is used; NULL stays NULL. -/
def DateVal.parsed : DateVal → Option Timestamp
  | .null => none
  | .iso t => some t
  | .raw _ p => p

/-- Julian day number of a proleptic Gregorian calendar date (the standard
integer formula, matching SQLite's julianday on dates in the data's range;
all intermediate operands are positive for real dates, so truncating and
flooring division agree). -/
def jdn (y m d : Int) : Int :=
  let a := (14 - m) / 12
  let yy := y + 4800 - a
  let mm := m + 12 * a - 3
  d + (153 * mm + 2) / 5 + 365 * yy + yy / 4 - yy / 100 + yy / 400 - 32045

/-- SQLite julianday of a timestamp: the Julian day number refers to noon, so
the day starts at JDN - 0.5, plus the elapsed fraction of the day. -/
def julianTs (t : Timestamp) : ℚ :=
  (jdn t.year t.month t.day : ℚ) - 1 / 2 +
    ((t.hour * 3600 + t.minute * 60 + t.second : Nat) : ℚ) / 86400

/-- `JULIANDAY(InvoiceDate)`: NULL on NULL and on unparseable text. -/
def julianday (d : DateVal) : Option ℚ :=
  d.parsed.map julianTs

/-- `CAST(strftime('%H', InvoiceDate) AS INTEGER)` of query 7.1: NULL on NULL
and on text SQLite cannot parse as a datetime. -/
def strftime_hour (d : DateVal) : Option Nat :=
  d.parsed.map (·.hour)

/-- `strftime('%w', ...)`: 0 = Sunday .. 6 = Saturday; Julian day number 0
was a Monday, hence the shift by one. -/
def dowIndex (t : Timestamp) : Int :=
  (jdn t.year t.month t.day + 1) % 7

/-- The CASE mapping `strftime('%w')` to an English day name in query 7.2
(lines 581-589); with no ELSE arm an unparseable date yields NULL. -/
def dow_name (d : DateVal) : Option String :=
  d.parsed.map fun t =>
    match (dowIndex t).toNat with
    | 0 => "Sunday"
    | 1 => "Monday"
    | 2 => "Tuesday"
    | 3 => "Wednesday"
    | 4 => "Thursday"
    | 5 => "Friday"
    | _ => "Saturday"

/-- Lexicographic comparison of character lists — SQLite's BINARY collation
on the (ASCII) stored texts. -/
def charListLt : List Char → List Char → Bool
  | _, [] => false
  | [], _ :: _ => true
  | a :: as, b :: bs => if a = b then charListLt as bs else decide (a < b)

/-- `MAX(InvoiceDate)`: SQL MAX ignores NULLs and keeps the value whose
stored text is largest under the BINARY collation (on the canonical
zero-padded texts this is chronological order). -/
def maxDate (l : List DateVal) : Option DateVal :=
  l.foldl (fun acc d =>
    match d.text with
    | none => acc
    | some sd =>
      match acc with
      | none => some d
      | some a =>
        if charListLt (a.text.getD "").data sd.data then some d else some a) none

/-- Shared WHERE clause of queries 7.1 and 7.2 (run_analysis.py lines 567 and
593): InvoiceDate IS NOT NULL AND UnitPrice IS NOT NULL AND InvoiceNo NOT
LIKE 'C%' AND Quantity > 0.  A raw unparseable timestamp text is not NULL, so
it passes this filter. -/
def timeView (db : List Row) : List Row :=
  db.filter fun r =>
    (r.invoiceDate != DateVal.null) && r.unitPrice.isSome &&
      notLikeC r.invoiceNo && qtyPos r

/-- Result row of query 7.1 (lines 558-574). -/
structure HourlyRow where
  hour_of_day : Option Nat
  num_invoices : Nat
  num_transactions : Nat
  revenue : Option ℚ
deriving DecidableEq

/-- ORDER BY key for the hour column: SQLite sorts NULL before all values. -/
def hourKeyNat : Option Nat → Nat
  | none => 0
  | some h => h + 1

/-- Row order of query 7.1: ascending hour, NULL first. -/
def hourLe (a b : HourlyRow) : Prop :=
  hourKeyNat a.hour_of_day ≤ hourKeyNat b.hour_of_day

instance : DecidableRel hourLe :=
  fun _ _ => Nat.decLe _ _

/-- Query 7.1 of run_analysis.py (lines 558-574): hour-of-day sales pattern.
GROUP BY collects all NULL hour keys into one group. -/
def hourly_pattern (db : List Row) : List HourlyRow :=
  let v := timeView db
  let keys := (v.map fun r => strftime_hour r.invoiceDate).dedup
  List.insertionSort hourLe (keys.map fun h =>
    let g := v.filter fun r => strftime_hour r.invoiceDate == h
    { hour_of_day := h
      num_invoices := distinctCount (g.map (·.invoiceNo))
      num_transactions := g.length
      revenue := round2Opt (sumSales g) })

/-- Result row of query 7.2 (lines 577-600). -/
structure DowRow where
  day_of_week : Option String
  num_invoices : Nat
  revenue : Option ℚ
deriving DecidableEq

/-- Row order of query 7.2: revenue descending. -/
def dowGe (a b : DowRow) : Prop :=
  b.revenue.getD 0 ≤ a.revenue.getD 0

instance : DecidableRel dowGe :=
  fun _ _ => inferInstanceAs (Decidable (_ ≤ _))

/-- Query 7.2 of run_analysis.py (lines 577-600): day-of-week pattern. -/
def day_of_week_report (db : List Row) : List DowRow :=
  let v := timeView db
  let keys := (v.map fun r => dow_name r.invoiceDate).dedup
  List.insertionSort dowGe (keys.map fun dn =>
    let g := v.filter fun r => dow_name r.invoiceDate == dn
    { day_of_week := dn
      num_invoices := distinctCount (g.map (·.invoiceNo))
      revenue := round2Opt (sumSales g) })

/-- A row whose InvoiceDate was left as a raw best-effort text by
parse_invoice_date (day.month.year does not match any of its three strptime
formats) and which SQLite's datetime functions cannot parse either. -/
def c4Row : Row :=
  { invoiceNo := some "536370", stockCode := some "22728",
    description := some "ALARM CLOCK BAKELIKE PINK",
    quantity := some 6, invoiceDate := .raw "01.12.2010 08:26" none,
    unitPrice := some 2.55, customerId := some 12583,
    country := some "France" }

/-- C4 counterexample: a qualifying row with an unparseable raw timestamp is
NOT excluded from the time-bucketed reports — its text is not NULL, so it
passes the WHERE filter, strftime yields NULL on it, and both pattern reports
emit a bucket with a NULL time key containing it. -/
theorem C4_counterexample :
    (hourly_pattern [c4Row]).map (·.hour_of_day) = [none] ∧
    (day_of_week_report [c4Row]).map (·.day_of_week) = [none] := by
  refine ⟨by decide, by decide⟩

/-- C4 amended: rows whose timestamp is NULL are excluded from the hour and
day-of-week views; but a view row whose timestamp SQLite cannot parse is
placed in a bucket whose time key is NULL, for both reports. -/
theorem C4_time_bucketing (db : List Row) :
    (∀ r ∈ db, r.invoiceDate = DateVal.null → r ∉ timeView db) ∧
    (∀ r ∈ timeView db, strftime_hour r.invoiceDate = none →
        none ∈ (hourly_pattern db).map (·.hour_of_day)) ∧
    (∀ r ∈ timeView db, dow_name r.invoiceDate = none →
        none ∈ (day_of_week_report db).map (·.day_of_week)) := by
  refine ⟨?_, ?_, ?_⟩
  · intro r _ hnull hmem
    have hp := (List.mem_filter.mp hmem).2
    rw [hnull] at hp
    simp at hp
  · intro r hrv hnone
    have hkey : (none : Option Nat)
        ∈ ((timeView db).map fun x => strftime_hour x.invoiceDate).dedup :=
      List.mem_dedup.mpr (List.mem_map.mpr ⟨r, hrv, hnone⟩)
    simp only [hourly_pattern]
    have hperm := (List.perm_insertionSort hourLe
      ((((timeView db).map fun x => strftime_hour x.invoiceDate).dedup).map fun h =>
        { hour_of_day := h
          num_invoices := distinctCount
            (((timeView db).filter fun x => strftime_hour x.invoiceDate == h).map
              (·.invoiceNo))
          num_transactions :=
            ((timeView db).filter fun x => strftime_hour x.invoiceDate == h).length
          revenue := round2Opt
            (sumSales ((timeView db).filter fun x =>
              strftime_hour x.invoiceDate == h)) })).map
      (fun row => row.hour_of_day)
    rw [hperm.mem_iff, List.map_map]
    exact List.mem_map.mpr ⟨none, hkey, rfl⟩
  · intro r hrv hnone
    have hkey : (none : Option String)
        ∈ ((timeView db).map fun x => dow_name x.invoiceDate).dedup :=
      List.mem_dedup.mpr (List.mem_map.mpr ⟨r, hrv, hnone⟩)
    simp only [day_of_week_report]
    have hperm := (List.perm_insertionSort dowGe
      ((((timeView db).map fun x => dow_name x.invoiceDate).dedup).map fun dn =>
        { day_of_week := dn
          num_invoices := distinctCount
            (((timeView db).filter fun x => dow_name x.invoiceDate == dn).map
              (·.invoiceNo))
          revenue := round2Opt
            (sumSales ((timeView db).filter fun x =>
              dow_name x.invoiceDate == dn)) })).map
      (fun row => row.day_of_week)
    rw [hperm.mem_iff, List.map_map]
    exact List.mem_map.mpr ⟨none, hkey, rfl⟩

/-- Witness for C4 amended at the concrete one-row dataset. -/
theorem C4_witness :
    none ∈ (hourly_pattern [c4Row]).map (·.hour_of_day) :=
  (C4_time_bucketing [c4Row]).2.1 c4Row (by decide) (by decide)

/-- WHERE clause of the customer_metrics CTE of query 5.1 (line 340):
CustomerID IS NOT NULL AND UnitPrice IS NOT NULL AND InvoiceNo NOT LIKE 'C%'
AND Quantity > 0. -/
def rfmView (db : List Row) : List Row :=
  db.filter fun r =>
    r.customerId.isSome && r.unitPrice.isSome && notLikeC r.invoiceNo && qtyPos r

/-- The customers produced by GROUP BY CustomerID in query 5.1. -/
def rfmCustomers (db : List Row) : List Nat :=
  ((rfmView db).filterMap (·.customerId)).dedup

/-- Recency CASE of query 5.1 (lines 350-356); a NULL days value fails every
WHEN comparison and falls to the ELSE 1 arm. -/
def recency_score_51 (d : Option ℚ) : Nat :=
  match d with
  | some x =>
    if x ≤ 30 then 5
    else if x ≤ 60 then 4
    else if x ≤ 90 then 3
    else if x ≤ 180 then 2
    else 1
  | none => 1

/-- Frequency CASE of query 5.1 (lines 357-363). -/
def frequency_score_51 (f : Nat) : Nat :=
  if 50 ≤ f then 5
  else if 20 ≤ f then 4
  else if 10 ≤ f then 3
  else if 5 ≤ f then 2
  else 1

/-- Monetary CASE of query 5.1 (lines 364-370); NULL falls to ELSE 1. -/
def monetary_score_51 (mv : Option ℚ) : Nat :=
  match mv with
  | some x =>
    if 5000 ≤ x then 5
    else if 2000 ≤ x then 4
    else if 1000 ≤ x then 3
    else if 500 ≤ x then 2
    else 1
  | none => 1

/-- Output row of query 5.1 (lines 373-394). -/
structure RfmRow where
  customerId : Nat
  last_purchase_date : Option DateVal
  days_since_last_purchase : Option ℚ
  frequency : Nat
  monetary_value : Option ℚ
  recency_score : Nat
  frequency_score : Nat
  monetary_score : Nat
  rfm_score : Nat
  customer_segment : String
deriving DecidableEq

/-- The row query 5.1 derives for one customer: MAX(InvoiceDate),
JULIANDAY('now') - JULIANDAY(MAX(InvoiceDate)) where `now` is the Julian day
of the instant SQLite evaluates the query, COUNT(DISTINCT InvoiceNo),
ROUND(SUM(...), 2), the three scores and the segment CASE. -/
def rfmRowOf (now : ℚ) (db : List Row) (c : Nat) : RfmRow :=
  let g := (rfmView db).filter fun r => r.customerId == some c
  let lpd := maxDate (g.map (·.invoiceDate))
  let days := (lpd.bind julianday).map fun j => now - j
  let freq := distinctCount (g.map (·.invoiceNo))
  let mv := round2Opt (sumSales g)
  let rs := recency_score_51 days
  let fs := frequency_score_51 freq
  let ms := monetary_score_51 mv
  { customerId := c
    last_purchase_date := lpd
    days_since_last_purchase := days
    frequency := freq
    monetary_value := mv
    recency_score := rs
    frequency_score := fs
    monetary_score := ms
    rfm_score := rs + fs + ms
    customer_segment := customer_segment_51 rs fs ms }

/-- ORDER BY rfm_score DESC, monetary_value DESC of query 5.1 (line 394);
monetary_value is never NULL on this view, the getD 0 is only a total
default. -/
def rfmOrd (a b : RfmRow) : Prop :=
  b.rfm_score < a.rfm_score ∨
    (b.rfm_score = a.rfm_score ∧ b.monetary_value.getD 0 ≤ a.monetary_value.getD 0)

instance : DecidableRel rfmOrd :=
  fun _ _ => inferInstanceAs (Decidable (_ ∨ _))

/-- Query 5.1 of run_analysis.py (lines 329-399): RFM segmentation, one row
per customer of the qualifying view.  The parameter `now` is the Julian day
value of `JULIANDAY('now')` — the wall-clock instant at which SQLite runs the
query; the query text offers no way to supply it. -/
def rfm_segments (now : ℚ) (db : List Row) : List RfmRow :=
  List.insertionSort rfmOrd ((rfmCustomers db).map (rfmRowOf now db))

/-- WHERE clause of the customer_metrics CTE of query 5.2 (line 412),
textually identical to the one of query 5.1. -/
def rfmView52 (db : List Row) : List Row :=
  db.filter fun r =>
    r.customerId.isSome && r.unitPrice.isSome && notLikeC r.invoiceNo && qtyPos r

/-- The customers produced by GROUP BY CustomerID in query 5.2. -/
def rfm52Customers (db : List Row) : List Nat :=
  ((rfmView52 db).filterMap (·.customerId)).dedup

/-- Recency CASE of query 5.2 (lines 420-426). -/
def recency_score_52 (d : Option ℚ) : Nat :=
  match d with
  | some x =>
    if x ≤ 30 then 5
    else if x ≤ 60 then 4
    else if x ≤ 90 then 3
    else if x ≤ 180 then 2
    else 1
  | none => 1

/-- Frequency CASE of query 5.2 (lines 427-433). -/
def frequency_score_52 (f : Nat) : Nat :=
  if 50 ≤ f then 5
  else if 20 ≤ f then 4
  else if 10 ≤ f then 3
  else if 5 ≤ f then 2
  else 1

/-- Monetary CASE of query 5.2 (lines 434-440). -/
def monetary_score_52 (mv : Option ℚ) : Nat :=
  match mv with
  | some x =>
    if 5000 ≤ x then 5
    else if 2000 ≤ x then 4
    else if 1000 ≤ x then 3
    else if 500 ≤ x then 2
    else 1
  | none => 1

/-- Segment CASE of the segmented CTE of query 5.2 (lines 445-454),
textually identical to the CASE of query 5.1. -/
def customer_segment_52 (r f m : Nat) : String :=
  if 4 ≤ r ∧ 4 ≤ f ∧ 4 ≤ m then "Champions"
  else if 3 ≤ r ∧ 4 ≤ f ∧ 3 ≤ m then "Loyal Customers"
  else if 4 ≤ r ∧ f ≤ 2 then "Potential Loyalists"
  else if 3 ≤ r ∧ f ≤ 2 ∧ 3 ≤ m then "At Risk"
  else if r ≤ 2 ∧ 3 ≤ f then "Cannot Lose Them"
  else if r ≤ 2 ∧ f ≤ 2 ∧ 3 ≤ m then "Hibernating"
  else if r ≤ 2 then "Lost"
  else "Need Attention"

/-- Row of the segmented CTE of query 5.2 (lines 443-458): segment label,
customer and monetary value. -/
structure Seg52 where
  customer_segment : String
  customerId : Nat
  monetary_value : Option ℚ
deriving DecidableEq

/-- The segmented-CTE row query 5.2 derives for one customer. -/
def seg52Of (now : ℚ) (db : List Row) (c : Nat) : Seg52 :=
  let g := (rfmView52 db).filter fun r => r.customerId == some c
  let days := ((maxDate (g.map (·.invoiceDate))).bind julianday).map fun j => now - j
  let freq := distinctCount (g.map (·.invoiceNo))
  let mv := round2Opt (sumSales g)
  { customer_segment :=
      customer_segment_52 (recency_score_52 days) (frequency_score_52 freq)
        (monetary_score_52 mv)
    customerId := c
    monetary_value := mv }

/-- The segmented CTE of query 5.2: one row per qualifying customer. -/
def segmented_52 (now : ℚ) (db : List Row) : List Seg52 :=
  (rfm52Customers db).map (seg52Of now db)

/-- SQL SUM over nullable values: NULLs are ignored, NULL when no value
remains. -/
def sqlSumOpt (l : List (Option ℚ)) : Option ℚ :=
  match l.filterMap id with
  | [] => none
  | xs => some xs.sum

/-- SQL AVG over nullable values: NULLs are ignored, NULL when no value
remains. -/
def sqlAvgOpt (l : List (Option ℚ)) : Option ℚ :=
  match l.filterMap id with
  | [] => none
  | xs => some (xs.sum / xs.length)

/-- Output row of query 5.2 (lines 459-467). -/
structure SummaryRow where
  customer_segment : String
  num_customers : Nat
  percentage : Option ℚ
  total_revenue : Option ℚ
  avg_customer_value : Option ℚ
deriving DecidableEq

/-- ORDER BY total_revenue DESC of query 5.2 (line 467). -/
def sumOrd (a b : SummaryRow) : Prop :=
  b.total_revenue.getD 0 ≤ a.total_revenue.getD 0

instance : DecidableRel sumOrd :=
  fun _ _ => inferInstanceAs (Decidable (_ ≤ _))

/-- Query 5.2 of run_analysis.py (lines 402-472): RFM segment summary,
grouping the segmented CTE by segment label. -/
def rfm_summary (now : ℚ) (db : List Row) : List SummaryRow :=
  let segd := segmented_52 now db
  let labels := (segd.map (·.customer_segment)).dedup
  List.insertionSort sumOrd (labels.map fun s =>
    let g := segd.filter fun x => x.customer_segment == s
    { customer_segment := s
      num_customers := g.length
      percentage := round2Opt (sqlDiv (some (100 * (g.length : ℚ))) (some (segd.length : ℚ)))
      total_revenue := round2Opt (sqlSumOpt (g.map (·.monetary_value)))
      avg_customer_value := round2Opt (sqlAvgOpt (g.map (·.monetary_value))) })

/-- A one-customer dataset with a canonical timestamp, for exercising the
dependence of the RFM report on the evaluation instant. -/
def c3Rows : List Row :=
  [ { invoiceNo := some "536365", stockCode := some "85123A",
      description := some "WHITE HANGING HEART T-LIGHT HOLDER",
      quantity := some 6, invoiceDate := .iso ⟨2010, 12, 1, 8, 26, 0⟩,
      unitPrice := some 2.55, customerId := some 17850,
      country := some "United Kingdom" } ]

/-- C3 counterexample: the evaluation instant of query 5.1 is not an
injectable parameter — the query text hardwires JULIANDAY('now'), so the
instant is whatever the wall clock reads when the query runs, and the
computed segment labels change with it.  Here the same dataset yields
"Potential Loyalists" when the query runs 10 days after the last purchase
and "Lost" when it runs 200 days after it. -/
theorem C3_counterexample :
    (rfm_segments (julianTs ⟨2010, 12, 1, 8, 26, 0⟩ + 10) c3Rows).map
        (·.customer_segment)
      ≠ (rfm_segments (julianTs ⟨2010, 12, 1, 8, 26, 0⟩ + 200) c3Rows).map
          (·.customer_segment) := by decide

/-- C3 amended: recency is computed against the wall-clock instant of query
execution, not a caller-supplied reference time: for every dataset and every
value `now` of JULIANDAY('now'), each row of the RFM report carries
days_since_last_purchase = now - julianday(last_purchase_date).  Output is
reproducible only across runs whose wall-clock instant agrees. -/
theorem C3_rfm_wall_clock (now : ℚ) (db : List Row) :
    ∀ r ∈ rfm_segments now db,
      r.days_since_last_purchase
        = (r.last_purchase_date.bind julianday).map (fun j => now - j) := by
  intro r hr
  have hr' := ((List.perm_insertionSort rfmOrd
    ((rfmCustomers db).map (rfmRowOf now db))).mem_iff).mp hr
  rcases List.mem_map.mp hr' with ⟨c, _, rfl⟩
  rfl

/-- A minimal dataset for instantiating the RFM theorems. -/
def wRows : List Row :=
  [ { invoiceNo := some "100001", stockCode := some "X", description := none,
      quantity := some 1, invoiceDate := .null, unitPrice := some 1,
      customerId := some 1, country := some "United Kingdom" } ]

/-- Witness for C3 amended at the concrete instant 0 and dataset wRows. -/
theorem C3_witness :
    (rfmRowOf 0 wRows 1).days_since_last_purchase
      = ((rfmRowOf 0 wRows 1).last_purchase_date.bind julianday).map
          (fun j => (0 : ℚ) - j) :=
  C3_rfm_wall_clock 0 wRows (rfmRowOf 0 wRows 1) (by decide)

lemma seg_count_51_52 (now : ℚ) (db : List Row) (s : String) :
    ((segmented_52 now db).filter fun x => x.customer_segment == s).length
      = ((rfm_segments now db).filter fun r => r.customer_segment == s).length := by
  rw [← List.countP_eq_length_filter, ← List.countP_eq_length_filter]
  have h51 : List.countP (fun r => r.customer_segment == s) (rfm_segments now db)
      = List.countP (fun r => r.customer_segment == s)
          ((rfmCustomers db).map (rfmRowOf now db)) :=
    List.Perm.countP_eq _ (List.perm_insertionSort rfmOrd _)
  rw [h51, List.countP_map]
  simp only [segmented_52]
  rw [List.countP_map]
  rfl

/-- C10: for every dataset and every fixed evaluation instant, the
per-customer segment assignment of the segmentation report (query 5.1) and
the assignment underlying the segment summary (query 5.2) are the same
function — the (customer, segment) pairs of the two queries are a
permutation of each other — and each summary row's num_customers equals the
number of rows of the segmentation report carrying that segment label. -/
theorem C10_rfm_consistency (now : ℚ) (db : List Row) :
    (((rfm_segments now db).map fun r => (r.customerId, r.customer_segment)).Perm
      ((segmented_52 now db).map fun s => (s.customerId, s.customer_segment))) ∧
    ∀ srow ∈ rfm_summary now db,
      srow.num_customers =
        ((rfm_segments now db).filter
          fun r => r.customer_segment == srow.customer_segment).length := by
  constructor
  · have h1 := (List.perm_insertionSort rfmOrd
      ((rfmCustomers db).map (rfmRowOf now db))).map
      (fun r : RfmRow => (r.customerId, r.customer_segment))
    have h2 : (((rfmCustomers db).map (rfmRowOf now db)).map
          fun r => (r.customerId, r.customer_segment))
        = ((segmented_52 now db).map fun s => (s.customerId, s.customer_segment)) := by
      simp only [segmented_52, List.map_map]
      rfl
    rw [← h2]
    exact h1
  · intro srow hsrow
    have hsrow' := ((List.perm_insertionSort sumOrd _).mem_iff).mp hsrow
    rcases List.mem_map.mp hsrow' with ⟨s, _, rfl⟩
    exact seg_count_51_52 now db s

/-- Witness for C10 at the concrete instant 0 and dataset wRows, whose
summary consists of the single row (Lost, 1 customer, 100 percent). -/
theorem C10_witness :
    (⟨"Lost", 1, some 100, some 1, some 1⟩ : SummaryRow).num_customers
      = ((rfm_segments 0 wRows).filter
          fun r => r.customer_segment ==
            (⟨"Lost", 1, some 100, some 1, some 1⟩ : SummaryRow).customer_segment).length :=
  (C10_rfm_consistency 0 wRows).2 ⟨"Lost", 1, some 100, some 1, some 1⟩ (by decide)

/-- Basket-size CASE of query 9.2 (lines 670-678): BETWEEN is inclusive on
both ends; the ELSE arm catches everything outside the named ranges. -/
def basket_size_category (n : Int) : String :=
  if n = 1 then "1 item"
  else if 2 ≤ n ∧ n ≤ 5 then "2-5 items"
  else if 6 ≤ n ∧ n ≤ 10 then "6-10 items"
  else if 11 ≤ n ∧ n ≤ 20 then "11-20 items"
  else if 21 ≤ n ∧ n ≤ 50 then "21-50 items"
  else "50+ items"

/-- WHERE clause of the inner subquery of query 9.2 (line 688): InvoiceNo NOT
LIKE 'C%' AND Quantity > 0. -/
def basketView (db : List Row) : List Row :=
  db.filter fun r => notLikeC r.invoiceNo && qtyPos r

/-- The invoices produced by GROUP BY InvoiceNo in the inner subquery. -/
def basketInvoices (db : List Row) : List String :=
  ((basketView db).filterMap (·.invoiceNo)).dedup

/-- `SUM(CASE WHEN Quantity > 0 THEN Quantity ELSE 0 END)` per invoice; on
this view every row already has Quantity > 0. -/
def items_per_invoice (db : List Row) (inv : String) : Int :=
  (((basketView db).filter fun r => r.invoiceNo == some inv).map
    fun r => r.quantity.getD 0).sum

/-- The rows of the inner subquery invoice_items: one (invoice, item count)
pair per distinct invoice. -/
def basketPairs (db : List Row) : List (String × Int) :=
  (basketInvoices db).map fun i => (i, items_per_invoice db i)

/-- The denominator subquery of the percentage column (lines 680-682):
COUNT(DISTINCT InvoiceNo) over all non-cancelled rows, without the
Quantity > 0 restriction. -/
def basketDenom (db : List Row) : Nat :=
  distinctCount ((db.filter fun r => notLikeC r.invoiceNo).map (·.invoiceNo))

/-- Minimum of a list of integers (0 on the empty list; only applied to
non-empty groups). -/
def intMin : List Int → Int
  | [] => 0
  | x :: xs => xs.foldl min x

/-- Output row of query 9.2 (lines 667-697).  minItems carries the
`MIN(items_per_invoice)` value the query sorts by; it is not an exported
column. -/
structure BasketRow where
  basket_size_category : String
  num_invoices : Nat
  percentage : Option ℚ
  minItems : Int
deriving DecidableEq

/-- Row order of query 9.2: ORDER BY MIN(items_per_invoice) ascending. -/
def bkLe (a b : BasketRow) : Prop :=
  a.minItems ≤ b.minItems

instance : DecidableRel bkLe :=
  fun _ _ => inferInstanceAs (Decidable (_ ≤ _))

instance : IsTotal BasketRow bkLe :=
  ⟨fun a b => le_total a.minItems b.minItems⟩

instance : IsTrans BasketRow bkLe :=
  ⟨fun _ _ _ hab hbc => le_trans hab hbc⟩

/-- The output row of query 9.2 for one bucket label. -/
def basketRowOf (db : List Row) (c : String) : BasketRow :=
  let g := (basketPairs db).filter fun p => basket_size_category p.2 == c
  { basket_size_category := c
    num_invoices := g.length
    percentage :=
      round2Opt (sqlDiv (some (100 * (g.length : ℚ))) (some (basketDenom db : ℚ)))
    minItems := intMin (g.map Prod.snd) }

/-- Query 9.2 of run_analysis.py (lines 667-697): basket size distribution,
one row per bucket label present in the data, ordered by the per-bucket
minimum item count. -/
def basket_distribution (db : List Row) : List BasketRow :=
  List.insertionSort bkLe
    (((basketPairs db).map fun p => basket_size_category p.2).dedup.map
      (basketRowOf db))

/-- The lower bound of each bucket, read off the bucket labels of the spec
(section 4.3): {1, 2-5, 6-10, 11-20, 21-50, 50+}. -/
def bucket_lower_bound (s : String) : Int :=
  if s = "1 item" then 1
  else if s = "2-5 items" then 2
  else if s = "6-10 items" then 6
  else if s = "11-20 items" then 11
  else if s = "21-50 items" then 21
  else 50

lemma cat_cases (n : Int) (h1 : 1 ≤ n) :
    (n = 1 ∧ basket_size_category n = "1 item") ∨
    (2 ≤ n ∧ n ≤ 5 ∧ basket_size_category n = "2-5 items") ∨
    (6 ≤ n ∧ n ≤ 10 ∧ basket_size_category n = "6-10 items") ∨
    (11 ≤ n ∧ n ≤ 20 ∧ basket_size_category n = "11-20 items") ∨
    (21 ≤ n ∧ n ≤ 50 ∧ basket_size_category n = "21-50 items") ∨
    (51 ≤ n ∧ basket_size_category n = "50+ items") := by
  unfold basket_size_category
  split_ifs with h2 h3 h4 h5 h6
  · exact Or.inl ⟨h2, rfl⟩
  · exact Or.inr (Or.inl ⟨h3.1, h3.2, rfl⟩)
  · exact Or.inr (Or.inr (Or.inl ⟨h4.1, h4.2, rfl⟩))
  · exact Or.inr (Or.inr (Or.inr (Or.inl ⟨h5.1, h5.2, rfl⟩)))
  · exact Or.inr (Or.inr (Or.inr (Or.inr (Or.inl ⟨h6.1, h6.2, rfl⟩))))
  · exact Or.inr (Or.inr (Or.inr (Or.inr (Or.inr ⟨by omega, rfl⟩))))

lemma lb_mono {m n : Int} (hm : 1 ≤ m) (hn : 1 ≤ n) (hmn : m ≤ n)
    (hne : basket_size_category m ≠ basket_size_category n) :
    bucket_lower_bound (basket_size_category m)
      < bucket_lower_bound (basket_size_category n) := by
  rcases cat_cases m hm with ⟨h, hc⟩ | ⟨h, h2, hc⟩ | ⟨h, h2, hc⟩ | ⟨h, h2, hc⟩ |
      ⟨h, h2, hc⟩ | ⟨h, hc⟩ <;>
    rcases cat_cases n hn with ⟨g, gc⟩ | ⟨g, g2, gc⟩ | ⟨g, g2, gc⟩ | ⟨g, g2, gc⟩ |
      ⟨g, g2, gc⟩ | ⟨g, gc⟩ <;>
    rw [hc, gc] at hne ⊢ <;>
    first
      | exact absurd rfl hne
      | decide
      | (exfalso; omega)

lemma foldl_min_mem (xs : List Int) : ∀ x : Int, xs.foldl min x ∈ x :: xs := by
  induction xs with
  | nil => intro x; simp
  | cons y ys ih =>
    intro x
    rw [List.foldl_cons]
    have h := ih (min x y)
    rcases List.mem_cons.mp h with h' | h'
    · rw [h']
      rcases min_choice x y with hm | hm <;> rw [hm]
      · exact List.mem_cons_self _ _
      · exact List.mem_cons_of_mem _ (List.mem_cons_self _ _)
    · exact List.mem_cons_of_mem _ (List.mem_cons_of_mem _ h')

lemma intMin_mem {l : List Int} (h : l ≠ []) : intMin l ∈ l := by
  rcases l with _ | ⟨x, xs⟩
  · exact absurd rfl h
  · exact foldl_min_mem xs x

lemma sum_ge_one {l : List Int} (hne : l ≠ []) (h1 : ∀ x ∈ l, 1 ≤ x) :
    1 ≤ l.sum := by
  rcases l with _ | ⟨y, ys⟩
  · exact absurd rfl hne
  · have hy := h1 y (List.mem_cons_self _ _)
    have hys : (0 : Int) ≤ ys.sum :=
      List.sum_nonneg fun z hz =>
        le_trans (by norm_num) (h1 z (List.mem_cons_of_mem _ hz))
    rw [List.sum_cons]
    omega

lemma one_le_getD_of_qtyPos {r : Row} (h : qtyPos r = true) :
    1 ≤ r.quantity.getD 0 := by
  unfold qtyPos at h
  rcases hq : r.quantity with _ | q
  · rw [hq] at h
    simp at h
  · rw [hq] at h
    simp only [decide_eq_true_eq] at h
    simp only [Option.getD_some]
    omega

lemma one_le_items (db : List Row) (inv : String)
    (hinv : inv ∈ basketInvoices db) :
    1 ≤ items_per_invoice db inv := by
  rcases List.mem_filterMap.mp (List.mem_dedup.mp hinv) with ⟨r, hr, hrinv⟩
  have hrg : r ∈ (basketView db).filter fun x => x.invoiceNo == some inv := by
    rw [List.mem_filter]
    refine ⟨hr, ?_⟩
    rw [hrinv]
    exact beq_self_eq_true _
  have hne : ((basketView db).filter fun x => x.invoiceNo == some inv) ≠ [] :=
    List.ne_nil_of_mem hrg
  unfold items_per_invoice
  apply sum_ge_one
  · simpa using hne
  · intro x hx
    rcases List.mem_map.mp hx with ⟨r', hr', rfl⟩
    have hr'v : r' ∈ basketView db := (List.mem_filter.mp hr').1
    have hq : qtyPos r' = true := by
      have hb := (List.mem_filter.mp hr'v).2
      rw [Bool.and_eq_true] at hb
      exact hb.2
    exact one_le_getD_of_qtyPos hq

lemma basketRowOf_minItems (db : List Row) (c : String)
    (hc : c ∈ ((basketPairs db).map fun p => basket_size_category p.2).dedup) :
    1 ≤ (basketRowOf db c).minItems ∧
      basket_size_category (basketRowOf db c).minItems = c := by
  rcases List.mem_map.mp (List.mem_dedup.mp hc) with ⟨p0, hp0, hcat0⟩
  have hp0g : p0 ∈ (basketPairs db).filter fun p => basket_size_category p.2 == c := by
    rw [List.mem_filter]
    refine ⟨hp0, ?_⟩
    rw [hcat0]
    exact beq_self_eq_true _
  have hgne : ((basketPairs db).filter fun p => basket_size_category p.2 == c) ≠ [] :=
    List.ne_nil_of_mem hp0g
  have hmapne : (((basketPairs db).filter fun p => basket_size_category p.2 == c).map
      Prod.snd) ≠ [] := by
    simpa using hgne
  have hmem := intMin_mem hmapne
  rcases List.mem_map.mp hmem with ⟨q, hq, hqsnd⟩
  rw [List.mem_filter] at hq
  obtain ⟨hqpairs, hqcat⟩ := hq
  rcases List.mem_map.mp hqpairs with ⟨i, hi, hiq⟩
  constructor
  · show 1 ≤ intMin (((basketPairs db).filter fun p =>
      basket_size_category p.2 == c).map Prod.snd)
    rw [← hqsnd, ← hiq]
    exact one_le_items db i hi
  · show basket_size_category (intMin (((basketPairs db).filter fun p =>
      basket_size_category p.2 == c).map Prod.snd)) = c
    rw [← hqsnd]
    exact eq_of_beq hqcat

lemma basket_mem_facts (db : List Row) :
    ∀ a ∈ basket_distribution db,
      1 ≤ a.minItems ∧
        basket_size_category a.minItems = a.basket_size_category := by
  intro a ha
  have ha' := ((List.perm_insertionSort bkLe _).mem_iff).mp ha
  rcases List.mem_map.mp ha' with ⟨c, hc, rfl⟩
  exact basketRowOf_minItems db c hc

lemma basket_sorted (db : List Row) :
    List.Pairwise
      (fun a b => bucket_lower_bound a.basket_size_category
        < bucket_lower_bound b.basket_size_category)
      (basket_distribution db) := by
  have hs : List.Sorted bkLe (basket_distribution db) :=
    List.sorted_insertionSort bkLe _
  have hnd : List.Pairwise
      (fun a b : BasketRow => a.basket_size_category ≠ b.basket_size_category)
      (basket_distribution db) := by
    have hnodup :=
      List.nodup_dedup ((basketPairs db).map fun p => basket_size_category p.2)
    have hmap : List.Pairwise
        (fun a b : BasketRow => a.basket_size_category ≠ b.basket_size_category)
        ((((basketPairs db).map fun p => basket_size_category p.2).dedup).map
          (basketRowOf db)) :=
      List.Pairwise.map (basketRowOf db) (fun a b hab h => hab h) hnodup
    exact ((List.perm_insertionSort bkLe _).pairwise_iff
      (fun h h' => h h'.symm)).mpr hmap
  refine List.Pairwise.imp_of_mem ?_ (hs.and hnd)
  intro a b ha hb hab
  obtain ⟨ha1, ha2⟩ := basket_mem_facts db a ha
  obtain ⟨hb1, hb2⟩ := basket_mem_facts db b hb
  rw [← ha2, ← hb2]
  exact lb_mono ha1 hb1 hab.1 (by rw [ha2, hb2]; exact hab.2)

/-- C5: the basket-size CASE is a total function into the six bucket labels;
the five bounded buckets contain exactly their inclusive ranges (both
endpoints included), the 50+ bucket takes everything from 51 up; being a
CASE, the mapping assigns exactly one bucket to every count (exhaustive and
disjoint by construction); and on every dataset the distribution rows come
out ordered by strictly increasing bucket lower bound. -/
theorem C5_basket_buckets :
    (∀ n : Int, basket_size_category n ∈
      ["1 item", "2-5 items", "6-10 items", "11-20 items", "21-50 items",
        "50+ items"]) ∧
    (∀ n : Int, n = 1 → basket_size_category n = "1 item") ∧
    (∀ n : Int, 2 ≤ n → n ≤ 5 → basket_size_category n = "2-5 items") ∧
    (∀ n : Int, 6 ≤ n → n ≤ 10 → basket_size_category n = "6-10 items") ∧
    (∀ n : Int, 11 ≤ n → n ≤ 20 → basket_size_category n = "11-20 items") ∧
    (∀ n : Int, 21 ≤ n → n ≤ 50 → basket_size_category n = "21-50 items") ∧
    (∀ n : Int, 51 ≤ n → basket_size_category n = "50+ items") ∧
    (∀ db : List Row, List.Pairwise
      (fun a b => bucket_lower_bound a.basket_size_category
        < bucket_lower_bound b.basket_size_category)
      (basket_distribution db)) := by
  refine ⟨?_, ?_, ?_, ?_, ?_, ?_, ?_, basket_sorted⟩
  · intro n
    unfold basket_size_category
    split_ifs <;> simp
  · intro n h
    subst h
    decide
  · intro n h h'
    unfold basket_size_category
    split_ifs <;> first | rfl | (exfalso; omega)
  · intro n h h'
    unfold basket_size_category
    split_ifs <;> first | rfl | (exfalso; omega)
  · intro n h h'
    unfold basket_size_category
    split_ifs <;> first | rfl | (exfalso; omega)
  · intro n h h'
    unfold basket_size_category
    split_ifs <;> first | rfl | (exfalso; omega)
  · intro n h
    unfold basket_size_category
    split_ifs <;> first | rfl | (exfalso; omega)

/-- Witness for C5 at the inclusive upper endpoint 50 of the 21-50 bucket. -/
theorem C5_witness : basket_size_category 50 = "21-50 items" :=
  C5_basket_buckets.2.2.2.2.2.1 50 (by norm_num) (by norm_num)
